import Mathlib

/-!
Verification of the Context-Edge industrial gateway core: the data-source
adapter abstraction, the multi-source fusion engine, the recommendation
safety-gate state machine, and the network discovery service.

The Python sources are shallowly embedded: dictionaries become association
lists in insertion order, database rows become lists of records, wall-clock
instants become natural numbers, numeric values become rationals, and the
underlying protocol drivers and the asyncio scheduler become explicit
functional parameters describing the outcome of each driver call.
-/

/-- A Python scalar value as it appears in adapter read results: a number,
a string (for example an ISO timestamp), or a boolean. -/
inductive PyValue where
  | num (q : Rat)
  | str (s : String)
  | pybool (b : Bool)
deriving DecidableEq, Repr

/-- Assignment d[k] = v on a Python dict, modelled on an association list in
insertion order: an existing key is overwritten in place, a new key is
appended at the end. -/
def dictInsert {α : Type} (d : List (String × α)) (k : String) (v : α) :
    List (String × α) :=
  if d.any (fun p => decide (p.1 = k)) then
    d.map (fun p => if p.1 = k then (k, v) else p)
  else d ++ [(k, v)]

/-- Python dict.update: every key of src is assigned into d in order. -/
def dictUpdate {α : Type} (d src : List (String × α)) : List (String × α) :=
  src.foldl (fun acc p => dictInsert acc p.1 p.2) d

/-- Python dict.get: the value stored under k, if any. -/
def dictLookup {α : Type} (d : List (String × α)) (k : String) : Option α :=
  (d.find? (fun p => decide (p.1 = k))).map Prod.snd

namespace RecommendationService

/-- The status column of an ml_recommendations row. -/
inductive RecStatus where
  | pending
  | approved
  | rejected
  | executed
  | expired
deriving DecidableEq, Repr

/-- One safety_limits row: per (device_id, parameter_name) bounds consumed at
recommendation-creation time. -/
structure SafetyLimit where
  device_id : String
  parameter_name : String
  min_value : Rat
  max_value : Rat
  max_rate_of_change : Option Rat
  requires_approval : Bool
  enabled : Bool
deriving DecidableEq, Repr

/-- One ml_recommendations row. Timestamps are natural numbers in the same
unit as the expiration window (minutes). -/
structure MLRecommendation where
  recommendation_id : String
  device_id : String
  ldo_id : Option String
  action_type : String
  target_parameter : String
  current_value : Option Rat
  recommended_value : Rat
  unit : String
  confidence : Rat
  min_safe_value : Option Rat
  max_safe_value : Option Rat
  max_rate_of_change : Option Rat
  is_within_limits : Bool
  status : RecStatus
  priority : Nat
  expires_at : Option Nat
  approved_by : Option String
  approved_at : Option Nat
  operator_notes : Option String
  rejection_reason : Option String
  execution_status : Option String
  plc_response : Option String
deriving DecidableEq, Repr

/-- One ml_action_audit row (the free-form details payload is not modelled). -/
structure AuditEntry where
  recommendation_id : String
  action : String
  performed_by : String
deriving DecidableEq, Repr

/-- The database state touched by the recommendation service. -/
structure Database where
  recommendations : List MLRecommendation
  audit_log : List AuditEntry
  safety_limits : List SafetyLimit
deriving DecidableEq, Repr

/-- A recommendation draft as produced by the fusion rules and handed to
create_recommendation (the free-form reasoning text is not modelled; the
optional dict entries arrive already defaulted). -/
structure Draft where
  action_type : String
  target_parameter : String
  current_value : Option Rat
  recommended_value : Rat
  unit : String
  confidence : Rat
  priority : Nat
deriving DecidableEq, Repr

/-- The SELECT against safety_limits in create_recommendation: the first
enabled row matching (device_id, parameter_name). -/
def findLimit (db : Database) (device_id : String) (parameter : String) :
    Option SafetyLimit :=
  db.safety_limits.find? (fun l =>
    decide (l.device_id = device_id ∧ l.parameter_name = parameter ∧ l.enabled = true))

/-- The SELECT of a single ml_recommendations row by id. -/
def findRec (db : Database) (rec_id : String) : Option MLRecommendation :=
  db.recommendations.find? (fun r => decide (r.recommendation_id = rec_id))

/-- The row INSERTed by create_recommendation: when an enabled limit matches,
is_within_limits is the range check min_value <= recommended_value <= max_value;
with no matching limit the bounds are NULL and is_within_limits defaults to
true. The status is pending and expires_at is now plus the expiration window. -/
def build_row (db : Database) (device_id : String) (rec : Draft)
    (ldo_id : Option String) (now expiration_minutes : Nat) : MLRecommendation :=
  let rec_id := "REC-" ++ toString now
  match findLimit db device_id rec.target_parameter with
  | some l =>
      { recommendation_id := rec_id
        device_id := device_id
        ldo_id := ldo_id
        action_type := rec.action_type
        target_parameter := rec.target_parameter
        current_value := rec.current_value
        recommended_value := rec.recommended_value
        unit := rec.unit
        confidence := rec.confidence
        min_safe_value := some l.min_value
        max_safe_value := some l.max_value
        max_rate_of_change := l.max_rate_of_change
        is_within_limits :=
          decide (l.min_value ≤ rec.recommended_value ∧ rec.recommended_value ≤ l.max_value)
        status := RecStatus.pending
        priority := rec.priority
        expires_at := some (now + expiration_minutes)
        approved_by := none
        approved_at := none
        operator_notes := none
        rejection_reason := none
        execution_status := none
        plc_response := none }
  | none =>
      { recommendation_id := rec_id
        device_id := device_id
        ldo_id := ldo_id
        action_type := rec.action_type
        target_parameter := rec.target_parameter
        current_value := rec.current_value
        recommended_value := rec.recommended_value
        unit := rec.unit
        confidence := rec.confidence
        min_safe_value := none
        max_safe_value := none
        max_rate_of_change := none
        is_within_limits := true
        status := RecStatus.pending
        priority := rec.priority
        expires_at := some (now + expiration_minutes)
        approved_by := none
        approved_at := none
        operator_notes := none
        rejection_reason := none
        execution_status := none
        plc_response := none }

/-- create_recommendation: look up the safety limit, build and insert the
pending row, and append the created audit entry. Returns the new id. -/
def create_recommendation (db : Database) (device_id : String) (rec : Draft)
    (ldo_id : Option String) (now expiration_minutes : Nat) : Database × String :=
  let rec_id := "REC-" ++ toString now
  let row := build_row db device_id rec ldo_id now expiration_minutes
  ({ db with
      recommendations := db.recommendations ++ [row]
      audit_log := db.audit_log ++
        [{ recommendation_id := rec_id, action := "created", performed_by := "system" }] },
   rec_id)

/-- The distinct error returns of approve_recommendation. -/
inductive ApproveError where
  | notFound
  | invalidState (current : RecStatus)
  | expired
  | unsafeValue
deriving DecidableEq, Repr

/-- The success-or-error dict returned by approve_recommendation and
reject_recommendation. -/
inductive CallResult where
  | failure (e : ApproveError)
  | success (rec_id : String)
deriving DecidableEq, Repr

/-- approve_recommendation: fetch the row by id; fail with notFound when it is
absent, invalidState when its status is not pending, expired when expires_at
has passed, unsafeValue when is_within_limits is false; otherwise set the
status to approved, record the operator, and append the approved audit entry.
Every failure returns before any write, so the database is unchanged. -/
def approve_recommendation (db : Database) (rec_id : String) (operator : String)
    (notes : Option String) (now : Nat) : Database × CallResult :=
  match findRec db rec_id with
  | none => (db, CallResult.failure ApproveError.notFound)
  | some rec =>
    if rec.status ≠ RecStatus.pending then
      (db, CallResult.failure (ApproveError.invalidState rec.status))
    else if (match rec.expires_at with
             | some e => decide (e < now)
             | none => false) then
      (db, CallResult.failure ApproveError.expired)
    else if rec.is_within_limits = false then
      (db, CallResult.failure ApproveError.unsafeValue)
    else
      ({ db with
          recommendations := db.recommendations.map (fun r =>
            if r.recommendation_id = rec_id then
              { r with
                  status := RecStatus.approved
                  approved_by := some operator
                  approved_at := some now
                  operator_notes := notes }
            else r)
          audit_log := db.audit_log ++
            [{ recommendation_id := rec_id, action := "approved", performed_by := operator }] },
       CallResult.success rec_id)

/-- reject_recommendation: a single UPDATE guarded by recommendation_id and
status pending (rows in any other state, and unknown ids, are simply not
updated), then an unconditional INSERT of the rejected audit entry, then a
success return. There is no existence or state check before the return. -/
def reject_recommendation (db : Database) (rec_id : String) (operator : String)
    (reason : String) (now : Nat) : Database × CallResult :=
  ({ db with
      recommendations := db.recommendations.map (fun r =>
        if r.recommendation_id = rec_id ∧ r.status = RecStatus.pending then
          { r with
              status := RecStatus.rejected
              approved_by := some operator
              approved_at := some now
              rejection_reason := some reason }
        else r)
      audit_log := db.audit_log ++
        [{ recommendation_id := rec_id, action := "rejected", performed_by := operator }] },
   CallResult.success rec_id)

/-- mark_executed: a single UPDATE keyed on recommendation_id alone (the SQL
carries no status guard), setting status to executed and recording the
controller outcome, then the executed audit entry. -/
def mark_executed (db : Database) (rec_id : String) (execution_status : String)
    (plc_response : Option String) : Database :=
  { db with
      recommendations := db.recommendations.map (fun r =>
        if r.recommendation_id = rec_id then
          { r with
              status := RecStatus.executed
              execution_status := some execution_status
              plc_response := plc_response }
        else r)
      audit_log := db.audit_log ++
        [{ recommendation_id := rec_id, action := "executed", performed_by := "system" }] }

end RecommendationService

namespace FusionService

/-- The outcome of one adapter read as asyncio.gather with return_exceptions
observes it: either the exception object the read raised, or the dict it
returned. -/
inductive ReadOutcome where
  | raised
  | data (d : List (String × PyValue))
deriving DecidableEq, Repr

/-- The five fixed categories combined_data is initialized with. -/
structure CombinedData where
  plc : List (String × PyValue)
  mes : List (String × PyValue)
  erp : List (String × PyValue)
  scada : List (String × PyValue)
  historian : List (String × PyValue)
deriving DecidableEq, Repr

/-- combined_data before the merge loop: every category empty. -/
def emptyCombined : CombinedData :=
  { plc := [], mes := [], erp := [], scada := [], historian := [] }

/-- One iteration of the merge loop of read_sensor_data: an exception is
logged and skipped, a falsy (empty) result is skipped, modbus and opcua
results are unioned into the plc category by dict update, and each business
source name replaces its own category; an unrecognized source name
contributes nothing. -/
def categorize_read (acc : CombinedData) (source_name : String)
    (result : ReadOutcome) : CombinedData :=
  match result with
  | ReadOutcome.raised => acc
  | ReadOutcome.data r =>
    if r = [] then acc
    else if source_name = "modbus" ∨ source_name = "opcua" then
      { acc with plc := dictUpdate acc.plc r }
    else if source_name = "mes" then { acc with mes := r }
    else if source_name = "erp" then { acc with erp := r }
    else if source_name = "scada" then { acc with scada := r }
    else if source_name = "historian" then { acc with historian := r }
    else acc

/-- The full merge loop over the per-adapter results, in adapter iteration
order. -/
def combine_reads (adapters : List (String × ReadOutcome)) : CombinedData :=
  adapters.foldl (fun acc p => categorize_read acc p.1 p.2) emptyCombined

/-- The comprehension that drops empty categories, preserving the fixed
category order of the combined_data dict. -/
def nonempty_categories (c : CombinedData) :
    List (String × List (String × PyValue)) :=
  (if c.plc = [] then [] else [("plc", c.plc)]) ++
  (if c.mes = [] then [] else [("mes", c.mes)]) ++
  (if c.erp = [] then [] else [("erp", c.erp)]) ++
  (if c.scada = [] then [] else [("scada", c.scada)]) ++
  (if c.historian = [] then [] else [("historian", c.historian)])

/-- Modelled from the spec: the method _generate_mock_sensor_data invoked at
the fallback branch of read_sensor_data is not defined anywhere under the
source tree (FusionService has no base class, so the call would fail at
runtime); the spec describes it as a deterministic mock-data generator over
bounded Gaussian ranges per field whose output is never empty, so downstream
scoring always has input. It is modelled as the fixed per-field range centers
for the plc category. -/
def generate_mock_sensor_data : List (String × List (String × PyValue)) :=
  [("plc",
    [("temperature", PyValue.num 75), ("vibration", PyValue.num 3),
     ("pressure", PyValue.num 100), ("humidity", PyValue.num 45),
     ("cycle_time", PyValue.num 20)])]

/-- read_sensor_data: with no configured data sources it returns the empty
dict at once; otherwise it merges the per-adapter results, drops empty
categories, and falls back to the mock generator only when every category
ended up empty. -/
def read_sensor_data (adapters : List (String × ReadOutcome)) :
    List (String × List (String × PyValue)) :=
  if adapters = [] then []
  else
    let combined := nonempty_categories (combine_reads adapters)
    if combined = [] then generate_mock_sensor_data else combined

/-- The temperature block of generate_recommendations: fire when the reading
is truthy and above 85, target min (t - 10) 75, priority 1 only when the
reading is strictly above 95, else 2. The plc map carries the numeric
readings; the confidence is taken from the prediction. -/
def temperature_recommendation (plc : List (String × Rat)) (confidence : Rat) :
    Option RecommendationService.Draft :=
  match dictLookup plc "temperature" with
  | none => none
  | some t =>
    if t ≠ 0 ∧ t > 85 then
      some { action_type := "adjust_temperature"
             target_parameter := "temperature"
             current_value := some t
             recommended_value := min (t - 10) 75
             unit := "°C"
             confidence := confidence
             priority := if t > 95 then 1 else 2 }
    else none

/-- The vibration block of generate_recommendations: fire when the reading is
truthy and above 4, recommend a fixed 50 RPM reduction, priority 1 only
strictly above 6. -/
def vibration_recommendation (plc : List (String × Rat)) (confidence : Rat) :
    Option RecommendationService.Draft :=
  match dictLookup plc "vibration" with
  | none => none
  | some v =>
    if v ≠ 0 ∧ v > 4 then
      some { action_type := "reduce_speed"
             target_parameter := "rpm"
             current_value := dictLookup plc "rpm"
             recommended_value := 50
             unit := "RPM"
             confidence := confidence
             priority := if v > 6 then 1 else 2 }
    else none

/-- The pressure block of generate_recommendations: fire when the reading is
truthy and below 85, target max (p + 10) 95, fixed priority 2. -/
def pressure_recommendation (plc : List (String × Rat)) (confidence : Rat) :
    Option RecommendationService.Draft :=
  match dictLookup plc "pressure" with
  | none => none
  | some p =>
    if p ≠ 0 ∧ p < 85 then
      some { action_type := "adjust_pressure"
             target_parameter := "pressure"
             current_value := some p
             recommended_value := max (p + 10) 95
             unit := "PSI"
             confidence := confidence
             priority := 2 }
    else none

/-- The cycle-time block of generate_recommendations: fire when the reading
is truthy and above 28, fixed target 22 seconds, fixed priority 3. -/
def cycle_time_recommendation (plc : List (String × Rat)) (confidence : Rat) :
    Option RecommendationService.Draft :=
  match dictLookup plc "cycle_time" with
  | none => none
  | some c =>
    if c ≠ 0 ∧ c > 28 then
      some { action_type := "optimize_cycle_time"
             target_parameter := "cycle_time"
             current_value := some c
             recommended_value := 22
             unit := "seconds"
             confidence := confidence
             priority := 3 }
    else none

/-- The drafts emitted by one run of generate_recommendations, in rule order
(each draft is then handed to create_recommendation). -/
def generate_recommendation_drafts (plc : List (String × Rat))
    (confidence : Rat) : List RecommendationService.Draft :=
  (temperature_recommendation plc confidence).toList ++
  (vibration_recommendation plc confidence).toList ++
  (pressure_recommendation plc confidence).toList ++
  (cycle_time_recommendation plc confidence).toList

end FusionService

namespace ModbusPLCAdapter

/-- The outcome of one underlying ModbusTcpClient.connect call, as the adapter
observes it: a true return, a false return, or a raised exception. -/
inductive ConnectAttempt where
  | ok
  | refused
  | raised
deriving DecidableEq, Repr

/-- The adapter state and return value after a connect call, together with
how many underlying client connect calls were issued. -/
structure ConnectResult where
  is_connected : Bool
  returned : Bool
  attempts_made : Nat
deriving DecidableEq, Repr

/-- ModbusPLCAdapter.connect: with no configured host it returns false
without touching the client; otherwise it builds the client and issues
exactly one client.connect call, numbered 0 in the attempt sequence. A true
return sets is_connected; a false return or an exception leaves the previous
connection flag and returns false. The body contains no retry loop and no
backoff delay. -/
def connect (host : Option String) (driver : Nat → ConnectAttempt)
    (was_connected : Bool) : ConnectResult :=
  match host with
  | none => { is_connected := was_connected, returned := false, attempts_made := 0 }
  | some _ =>
    match driver 0 with
    | ConnectAttempt.ok =>
        { is_connected := true, returned := true, attempts_made := 1 }
    | ConnectAttempt.refused =>
        { is_connected := was_connected, returned := false, attempts_made := 1 }
    | ConnectAttempt.raised =>
        { is_connected := was_connected, returned := false, attempts_made := 1 }

/-- One register mapping of the adapter configuration, with the dict-access
defaults already applied (type holding, count 1, scale 1). -/
structure RegisterConfig where
  address : Nat
  rtype : String
  count : Nat
  scale : Rat
deriving DecidableEq, Repr

/-- The outcome of one client register read: an error response, a register
word list, a bit list, or a raised exception. -/
inductive RegisterReadResult where
  | isError
  | registers (rs : List Nat)
  | bits (bs : List Bool)
  | raised
deriving DecidableEq, Repr

/-- Python round to two decimal places on an exact rational: ties go to the
even hundredth (float representation artifacts of the source are not
modelled). -/
def round2 (q : Rat) : Rat :=
  let scaled := q * 100
  let f : Int := Int.floor scaled
  let frac := scaled - (f : Rat)
  if frac < 1 / 2 then (f : Rat) / 100
  else if 1 / 2 < frac then ((f + 1 : Int) : Rat) / 100
  else (if f % 2 = 0 then (f : Rat) else ((f + 1 : Int) : Rat)) / 100

/-- The body of the per-sensor loop of ModbusPLCAdapter.read_data for one
mapping: an unknown register type is skipped, an error result is skipped, a
raised exception is caught by the per-sensor handler and skipped, and
otherwise the stored value is the FIRST raw register word (or first bit)
divided by the scale and rounded to two decimals — the register count is
forwarded to the client call inside the config but never consulted when the
value is extracted. An empty word list is an IndexError, likewise caught and
skipped. -/
def read_one_register (driver : RegisterConfig → RegisterReadResult)
    (cfg : RegisterConfig) : Option Rat :=
  if cfg.rtype = "holding" ∨ cfg.rtype = "input" ∨ cfg.rtype = "coil" ∨
      cfg.rtype = "discrete" then
    match driver cfg with
    | RegisterReadResult.isError => none
    | RegisterReadResult.raised => none
    | RegisterReadResult.registers rs =>
      match rs with
      | [] => none
      | r :: _ => some (round2 ((r : Rat) / cfg.scale))
    | RegisterReadResult.bits bs =>
      match bs with
      | [] => none
      | b :: _ => some (round2 ((if b then 1 else 0) / cfg.scale))
  else none

/-- ModbusPLCAdapter.read_data: a disconnected adapter (or one without a
client object) returns the empty dict at once; otherwise every configured
mapping is read through the per-sensor loop, skipped values contribute
nothing, and the ISO timestamp is assigned into the dict last. The embedded
loop is total, so the top-level exception handler that would also return the
empty dict has no reachable trigger here. -/
def read_step (driver : RegisterConfig → RegisterReadResult)
    (acc : List (String × PyValue)) (p : String × RegisterConfig) :
    List (String × PyValue) :=
  match read_one_register driver p.2 with
  | none => acc
  | some v => dictInsert acc p.1 (PyValue.num v)

def read_data (is_connected : Bool)
    (register_mappings : List (String × RegisterConfig))
    (driver : RegisterConfig → RegisterReadResult) (now : String) :
    List (String × PyValue) :=
  if is_connected = false then []
  else
    let sensor_data := register_mappings.foldl (read_step driver) []
    dictInsert sensor_data "timestamp" (PyValue.str now)

end ModbusPLCAdapter

namespace DeviceDiscoveryService

/-- A parsed IPv4 network as ipaddress.ip_network(subnet, strict=False)
produces it: the network address (host bits masked off) as a 32-bit number,
and the prefix length. -/
structure IPv4Network where
  network_address : Nat
  prefix_len : Nat
deriving DecidableEq, Repr

/-- The host addresses of an IPv4 network in the order the Python ipaddress
library enumerates them: for prefix lengths up to 30, every address except
the network and broadcast addresses; a /31 yields both addresses and a /32
its single address. -/
def hosts (n : IPv4Network) : List Nat :=
  let size := 2 ^ (32 - n.prefix_len)
  if 31 ≤ n.prefix_len then
    (List.range size).map (fun i => n.network_address + i)
  else
    (List.range (size - 2)).map (fun i => n.network_address + 1 + i)

/-- _generate_ip_range: the ip_network parse is the standard library, so its
result — or its ValueError on an invalid subnet — is the input here; a parse
failure is caught and yields the empty list, and a parsed network is sliced
to its first 254 host addresses. -/
def generate_ip_range (parsed : Option IPv4Network) : List Nat :=
  match parsed with
  | none => []
  | some n => (hosts n).take 254

end DeviceDiscoveryService

open RecommendationService FusionService ModbusPLCAdapter DeviceDiscoveryService

/-- A concrete enabled safety limit for the temperature of device dev-1. -/
def sampleLimit : SafetyLimit :=
  { device_id := "dev-1", parameter_name := "temperature", min_value := 50,
    max_value := 80, max_rate_of_change := none, requires_approval := true,
    enabled := true }

/-- A concrete pending, in-range, unexpired recommendation. -/
def samplePendingRec : MLRecommendation :=
  { recommendation_id := "REC-1", device_id := "dev-1", ldo_id := none,
    action_type := "adjust_temperature", target_parameter := "temperature",
    current_value := some 95, recommended_value := 70, unit := "°C",
    confidence := 9 / 10, min_safe_value := some 50, max_safe_value := some 80,
    max_rate_of_change := none, is_within_limits := true,
    status := RecStatus.pending, priority := 1, expires_at := some 10,
    approved_by := none, approved_at := none, operator_notes := none,
    rejection_reason := none, execution_status := none, plc_response := none }

/-- A concrete recommendation already in the terminal rejected state. -/
def sampleRejectedRec : MLRecommendation :=
  { samplePendingRec with
      recommendation_id := "REC-2", status := RecStatus.rejected,
      approved_by := some "op-0", approved_at := some 3,
      rejection_reason := some "noise" }

/-- A database holding the pending REC-1 and the rejected REC-2. -/
def sampleDb : Database :=
  { recommendations := [samplePendingRec, sampleRejectedRec], audit_log := [],
    safety_limits := [sampleLimit] }

/-- Claim C1: evaluation at the failing input. mark_executed on the still
pending — never approved — recommendation REC-1, and even on the terminal
rejected recommendation REC-2, sets the status to executed: the UPDATE in
mark_executed carries no status guard, so executed is reachable without
passing through approved. -/
theorem mark_executed_ignores_current_status :
    (findRec sampleDb "REC-1").map MLRecommendation.status = some RecStatus.pending ∧
    (findRec (mark_executed sampleDb "REC-1" "success" none) "REC-1").map
      MLRecommendation.status = some RecStatus.executed ∧
    (findRec sampleDb "REC-2").map MLRecommendation.status = some RecStatus.rejected ∧
    (findRec (mark_executed sampleDb "REC-2" "success" none) "REC-2").map
      MLRecommendation.status = some RecStatus.executed := by
  exact ⟨rfl, rfl, rfl, rfl⟩

/-- Claim C3: evaluation at the failing inputs. reject on the unknown id
REC-404 does not fail with a not-found error: it reports success, leaves
every row unchanged, and still appends a rejected audit entry for the
nonexistent id; reject on the already rejected REC-2 likewise reports
success instead of an invalid-state error and appends a rejected audit
entry although no row changed. -/
theorem reject_reports_success_and_logs_without_checks :
    findRec sampleDb "REC-404" = none ∧
    (reject_recommendation sampleDb "REC-404" "op-7" "dup" 5).2 =
      CallResult.success "REC-404" ∧
    (reject_recommendation sampleDb "REC-404" "op-7" "dup" 5).1.recommendations =
      sampleDb.recommendations ∧
    (reject_recommendation sampleDb "REC-404" "op-7" "dup" 5).1.audit_log =
      sampleDb.audit_log ++ [⟨"REC-404", "rejected", "op-7"⟩] ∧
    (findRec sampleDb "REC-2").map MLRecommendation.status = some RecStatus.rejected ∧
    (reject_recommendation sampleDb "REC-2" "op-7" "again" 5).2 =
      CallResult.success "REC-2" ∧
    (reject_recommendation sampleDb "REC-2" "op-7" "again" 5).1.recommendations =
      sampleDb.recommendations ∧
    (reject_recommendation sampleDb "REC-2" "op-7" "again" 5).1.audit_log =
      sampleDb.audit_log ++ [⟨"REC-2", "rejected", "op-7"⟩] := by
  exact ⟨rfl, rfl, rfl, rfl, rfl, rfl, rfl, rfl⟩

/-- A database with no recommendations yet and the dev-1 temperature limit. -/
def baseDb : Database :=
  { recommendations := [], audit_log := [], safety_limits := [sampleLimit] }

/-- A draft whose recommended value 100 lies outside the matching limit
[50, 80]. -/
def unsafeDraft : Draft :=
  { action_type := "adjust_temperature", target_parameter := "temperature",
    current_value := some 95, recommended_value := 100, unit := "°C",
    confidence := 9 / 10, priority := 1 }

/-- The database after creating the unsafe draft at time 0 with the default
ten-minute expiration window; the new row is REC-0, expiring at time 10. -/
def dbAfterCreate : Database :=
  (create_recommendation baseDb "dev-1" unsafeDraft none 0 10).1

/-- Claim C2: counterexample. REC-0 is created while the enabled limit
[50, 80] matches and its value 100 lies outside, so it is stored with
is_within_limits false and stays pending; yet an approve call issued at time
11 — after the expiry instant 10 — fails with the expired error and not with
unsafeValue, because the expiry check precedes the safety-limit check. -/
theorem approve_unsafe_after_expiry_fails_with_expired :
    (findRec dbAfterCreate "REC-0").map MLRecommendation.is_within_limits =
      some false ∧
    (findRec dbAfterCreate "REC-0").map MLRecommendation.status =
      some RecStatus.pending ∧
    (approve_recommendation dbAfterCreate "REC-0" "op-1" none 11).2 =
      CallResult.failure ApproveError.expired ∧
    CallResult.failure ApproveError.expired ≠
      CallResult.failure ApproveError.unsafeValue := by
  refine ⟨rfl, rfl, rfl, by decide⟩

/-- Claim C2 (amended): a recommendation created while a matching enabled
safety limit exists and whose recommended value lies outside [min, max] is
stored with is_within_limits false; an approve call on any recommendation
whose is_within_limits is false never succeeds and never changes the
database, regardless of the operator; and whenever such a recommendation is
still pending and unexpired the failure is precisely the unsafeValue error,
leaving the status pending. -/
theorem unsafe_recommendation_never_approvable
    (db : Database) (device : String) (d : Draft) (l : SafetyLimit)
    (ldo : Option String) (now expMin : Nat)
    (hfind : findLimit db device d.target_parameter = some l)
    (hout : d.recommended_value < l.min_value ∨ l.max_value < d.recommended_value) :
    (build_row db device d ldo now expMin).is_within_limits = false ∧
    (∀ (db2 : Database) (id op : String) (notes : Option String) (t : Nat)
        (r : MLRecommendation),
      findRec db2 id = some r → r.is_within_limits = false →
      (approve_recommendation db2 id op notes t).1 = db2 ∧
      (∀ s, (approve_recommendation db2 id op notes t).2 ≠ CallResult.success s) ∧
      (r.status = RecStatus.pending →
        (∀ e, r.expires_at = some e → t ≤ e) →
        (approve_recommendation db2 id op notes t).2 =
          CallResult.failure ApproveError.unsafeValue)) := by
  constructor
  · simp only [build_row, hfind]
    rw [decide_eq_false_iff_not]
    rintro ⟨h1, h2⟩
    rcases hout with h | h
    · exact absurd h1 (not_le.mpr h)
    · exact absurd h2 (not_le.mpr h)
  · intro db2 id op notes t r hfound hw
    by_cases hs : r.status = RecStatus.pending
    · cases hx : r.expires_at with
      | none =>
        have hres : approve_recommendation db2 id op notes t =
            (db2, CallResult.failure ApproveError.unsafeValue) := by
          simp [approve_recommendation, hfound, hs, hx, hw]
        refine ⟨by rw [hres], fun s => by rw [hres]; simp, fun _ _ => by rw [hres]⟩
      | some e =>
        by_cases he : e < t
        · have hres : approve_recommendation db2 id op notes t =
              (db2, CallResult.failure ApproveError.expired) := by
            simp [approve_recommendation, hfound, hs, hx, he]
          refine ⟨by rw [hres], fun s => by rw [hres]; simp, ?_⟩
          intro _ hun
          exact absurd (hun e rfl) (not_le.mpr he)
        · have hres : approve_recommendation db2 id op notes t =
              (db2, CallResult.failure ApproveError.unsafeValue) := by
            simp [approve_recommendation, hfound, hs, hx, he, hw]
          refine ⟨by rw [hres], fun s => by rw [hres]; simp, fun _ _ => by rw [hres]⟩
    · have hres : approve_recommendation db2 id op notes t =
          (db2, CallResult.failure (ApproveError.invalidState r.status)) := by
        simp [approve_recommendation, hfound, hs]
      exact ⟨by rw [hres], fun s => by rw [hres]; simp, fun hp _ => absurd hp hs⟩

/-- Claim C2 witness: the amended statement instantiated on the concrete
database, limit and draft, with an approve call at the unexpired time 5. -/
theorem unsafe_recommendation_never_approvable_witness :
    (build_row baseDb "dev-1" unsafeDraft none 0 10).is_within_limits = false ∧
    (approve_recommendation dbAfterCreate "REC-0" "op-2" none 5).1 = dbAfterCreate ∧
    (approve_recommendation dbAfterCreate "REC-0" "op-2" none 5).2 =
      CallResult.failure ApproveError.unsafeValue := by
  have h := unsafe_recommendation_never_approvable baseDb "dev-1" unsafeDraft
    sampleLimit none 0 10 (by rfl) (by right; decide)
  have hfound : findRec dbAfterCreate "REC-0" =
      some (build_row baseDb "dev-1" unsafeDraft none 0 10) := by rfl
  have h2 := h.2 dbAfterCreate "REC-0" "op-2" none 5 _ hfound h.1
  refine ⟨h.1, h2.1, h2.2.2 (by rfl) ?_⟩
  intro e he
  have : (10 : Nat) = e := by
    have hx : (build_row baseDb "dev-1" unsafeDraft none 0 10).expires_at = some 10 := by rfl
    rw [hx] at he
    exact Option.some.inj he
  omega

/-- A PLC reading map whose only entry is a temperature of exactly 95. -/
def plc95 : List (String × Rat) := [("temperature", 95)]

/-- Claim C4: counterexample. At a temperature reading of exactly 95 the
temperature rule fires with recommended value 75 and action
adjust_temperature, but its priority is 2 and not the claimed 1: the
critical branch requires the reading to be strictly greater than 95, and
95 does not exceed 95. -/
theorem temperature_95_has_priority_two :
    (temperature_recommendation plc95 (85 / 100)).map Draft.priority = some 2 ∧
    (temperature_recommendation plc95 (85 / 100)).map Draft.priority ≠ some 1 := by
  constructor
  · rfl
  · decide

/-- Claim C4 (amended): a fusion cycle whose PLC data carries the single
reading temperature 95 emits exactly one recommendation draft: action
adjust_temperature, target temperature, recommended value 75, and priority 2
(priority 1 would require the reading to exceed the 95 critical threshold
strictly). -/
theorem temperature_95_draft :
    generate_recommendation_drafts plc95 (85 / 100) =
      [{ action_type := "adjust_temperature", target_parameter := "temperature",
         current_value := some 95, recommended_value := 75, unit := "°C",
         confidence := 85 / 100, priority := 2 }] := by
  simp only [generate_recommendation_drafts, temperature_recommendation,
    vibration_recommendation, pressure_recommendation, cycle_time_recommendation,
    plc95, dictLookup, List.find?]
  norm_num [min_def]
  decide

/-- Claim C5: counterexample. With an empty configured adapter set,
read_sensor_data returns the empty map at once instead of the mock
fallback data. -/
theorem read_sensor_data_empty_adapter_set_is_empty :
    read_sensor_data [] = [] ∧
    read_sensor_data [] ≠ generate_mock_sensor_data ∧
    generate_mock_sensor_data ≠ [] := by
  refine ⟨rfl, by decide, by decide⟩

/-- The merge loop leaves the accumulator untouched on a list of reads that
all raised or all came back empty. -/
theorem foldl_categorize_of_all_empty (l : List (String × ReadOutcome))
    (h : ∀ p ∈ l, p.2 = ReadOutcome.raised ∨ p.2 = ReadOutcome.data [])
    (acc : CombinedData) :
    l.foldl (fun acc p => categorize_read acc p.1 p.2) acc = acc := by
  induction l generalizing acc with
  | nil => rfl
  | cons p t ih =>
    have hp := h p (by simp)
    have ht : ∀ q ∈ t, q.2 = ReadOutcome.raised ∨ q.2 = ReadOutcome.data [] :=
      fun q hq => h q (by simp [hq])
    rcases hp with h1 | h1 <;>
      simp only [List.foldl_cons, categorize_read, h1, if_pos rfl] <;>
      exact ih ht acc

/-- Claim C5 (amended): when at least one adapter is configured and every
adapter read either raises or returns an empty dict, read_sensor_data falls
back to the never-empty mock sensor data; only a cycle whose configured
adapter set is itself empty returns the empty map instead. -/
theorem all_empty_reads_fall_back_to_mock
    (adapters : List (String × ReadOutcome)) (hne : adapters ≠ [])
    (hempty : ∀ p ∈ adapters,
      p.2 = ReadOutcome.raised ∨ p.2 = ReadOutcome.data []) :
    read_sensor_data adapters = generate_mock_sensor_data ∧
    generate_mock_sensor_data ≠ [] := by
  constructor
  · have hc : combine_reads adapters = emptyCombined :=
      foldl_categorize_of_all_empty adapters hempty emptyCombined
    simp only [read_sensor_data, if_neg hne, hc]
    rfl
  · decide

/-- A concrete adapter set whose every read is empty or raised. -/
def emptyReadAdapters : List (String × ReadOutcome) :=
  [("modbus", ReadOutcome.data []), ("mes", ReadOutcome.raised)]

/-- Claim C5 witness: the amended statement instantiated on a two-adapter
set whose modbus read came back empty and whose mes read raised. -/
theorem all_empty_reads_fall_back_to_mock_witness :
    read_sensor_data emptyReadAdapters = generate_mock_sensor_data ∧
    generate_mock_sensor_data ≠ [] :=
  all_empty_reads_fall_back_to_mock emptyReadAdapters (by decide) (by decide)

/-- Claim C6: a read that raises is isolated. Dropping the raising adapter
from the iteration changes neither the merged categories nor the final
read_sensor_data result, whatever the surrounding adapter set: the failing
adapter contributes nothing, and the results of every other adapter are
kept rather than discarded. -/
theorem raised_read_is_isolated (l1 l2 : List (String × ReadOutcome))
    (name : String) (hne : l1 ++ l2 ≠ []) :
    combine_reads (l1 ++ (name, ReadOutcome.raised) :: l2) =
      combine_reads (l1 ++ l2) ∧
    read_sensor_data (l1 ++ (name, ReadOutcome.raised) :: l2) =
      read_sensor_data (l1 ++ l2) := by
  have hc : combine_reads (l1 ++ (name, ReadOutcome.raised) :: l2) =
      combine_reads (l1 ++ l2) := by
    unfold combine_reads
    rw [List.foldl_append, List.foldl_append, List.foldl_cons]
    rfl
  refine ⟨hc, ?_⟩
  have hne1 : l1 ++ (name, ReadOutcome.raised) :: l2 ≠ [] := by
    simp
  simp only [read_sensor_data, if_neg hne1, if_neg hne, hc]

/-- A concrete healthy adapter whose modbus read returned one field. -/
def okAdapter : String × ReadOutcome :=
  ("modbus", ReadOutcome.data [("temperature", PyValue.num 95)])

/-- Claim C6 witness: a raising mes adapter next to a healthy modbus adapter
leaves the result exactly what the healthy adapter alone produces. -/
theorem raised_read_is_isolated_witness :
    read_sensor_data [okAdapter, ("mes", ReadOutcome.raised)] =
      read_sensor_data [okAdapter] :=
  (raised_read_is_isolated [okAdapter] [] "mes" (by simp)).2

/-- A dict read after an assignment of key k sees the assigned value. -/
theorem dictLookup_insert_self {α : Type} (d : List (String × α)) (k : String)
    (v : α) : dictLookup (dictInsert d k v) k = some v := by
  induction d with
  | nil => simp [dictInsert, dictLookup]
  | cons p t ih =>
    by_cases hp : p.1 = k
    · simp [dictInsert, dictLookup, hp]
    · cases ht : t.any (fun q => decide (q.1 = k)) with
      | false =>
        simp only [dictInsert, List.any_cons, hp, decide_False, Bool.false_or,
          ht, Bool.false_eq_true, if_false] at ih ⊢
        simpa [dictLookup, hp] using ih
      | true =>
        simp only [dictInsert, List.any_cons, hp, decide_False, Bool.false_or,
          ht, if_true] at ih ⊢
        simpa [dictLookup, hp] using ih

/-- A dict holding some value under some key is not the empty dict. -/
theorem dictLookup_some_ne_nil {α : Type} (d : List (String × α)) (k : String)
    (v : α) (h : dictLookup d k = some v) : d ≠ [] := by
  intro hnil
  rw [hnil] at h
  simp [dictLookup] at h

/-- A driver whose first connect attempt is refused and whose second would
succeed. -/
def flaky_driver : Nat → ConnectAttempt :=
  fun n => if n = 0 then ConnectAttempt.refused else ConnectAttempt.ok

/-- Claim C7: counterexample. Against a driver whose attempt 0 fails and
whose attempt 1 would succeed, ModbusPLCAdapter.connect reports failure
after exactly one underlying attempt and stays disconnected: the body has
no retry loop, so no configured maximum attempt count and no backoff
schedule is ever honored. -/
theorem connect_gives_up_after_one_attempt :
    connect (some "10.0.0.5") flaky_driver false =
      { is_connected := false, returned := false, attempts_made := 1 } ∧
    flaky_driver 1 = ConnectAttempt.ok := by
  exact ⟨rfl, rfl⟩

/-- Claim C7 (amended): connect issues a single connection attempt with no
retry and no backoff; whenever that sole attempt fails — a false return or a
raised exception — connect reports failure and leaves the adapter
disconnected. -/
theorem connect_single_attempt_then_disconnected (h : String)
    (driver : Nat → ConnectAttempt) (hfail : driver 0 ≠ ConnectAttempt.ok) :
    connect (some h) driver false =
      { is_connected := false, returned := false, attempts_made := 1 } := by
  cases hd : driver 0 with
  | ok => exact absurd hd hfail
  | refused => simp [connect, hd]
  | raised => simp [connect, hd]

/-- A driver that refuses every connect attempt. -/
def dead_driver : Nat → ConnectAttempt := fun _ => ConnectAttempt.refused

/-- Claim C7 witness: the amended statement instantiated on the
always-refusing driver. -/
theorem connect_single_attempt_then_disconnected_witness :
    connect (some "plc-7.local") dead_driver false =
      { is_connected := false, returned := false, attempts_made := 1 } :=
  connect_single_attempt_then_disconnected "plc-7.local" dead_driver (by decide)

/-- A two-register (32-bit) holding mapping with scale divisor 1. -/
def cfg32 : RegisterConfig :=
  { address := 40001, rtype := "holding", count := 2, scale := 1 }

/-- A driver answering the two-register mapping at address 40001 with the raw
words [1, 2]. -/
def driver32 : RegisterConfig → RegisterReadResult :=
  fun c => if c.address = 40001 then RegisterReadResult.registers [1, 2]
           else RegisterReadResult.isError

/-- Claim C8: counterexample. A count-two mapping whose raw register words
are [1, 2] would yield the 32-bit big-endian combination 65538 under the
claim, but read_data stores 1: the extraction takes the first register word
only and never combines the second. -/
theorem count_two_read_ignores_second_word :
    dictLookup (read_data true [("flow_rate", cfg32)] driver32 "t0")
      "flow_rate" = some (PyValue.num 1) ∧
    some (PyValue.num 1) ≠ some (PyValue.num 65538) := by
  refine ⟨?_, by decide⟩
  norm_num [read_data, read_step, read_one_register, driver32, cfg32,
    dictInsert, dictLookup, round2]
  simp [List.find?]

/-- Claim C8 (amended): for every register mapping — whatever its register
count — the value read_data stores is the first raw register word divided by
the scale divisor and rounded to two decimals; and a mapping whose read
errors out is skipped without aborting the rest of the read. -/
theorem read_value_first_word_and_error_skipped
    (driver : RegisterConfig → RegisterReadResult) (cfg : RegisterConfig)
    (r : Nat) (rest : List Nat)
    (hr : driver cfg = RegisterReadResult.registers (r :: rest))
    (ht : cfg.rtype = "holding") :
    read_one_register driver cfg = some (round2 ((r : Rat) / cfg.scale)) ∧
    (∀ (m1 m2 : List (String × RegisterConfig))
       (bad : String × RegisterConfig) (now : String),
      read_one_register driver bad.2 = none →
      read_data true (m1 ++ bad :: m2) driver now =
        read_data true (m1 ++ m2) driver now) := by
  constructor
  · simp [read_one_register, ht, hr]
  · intro m1 m2 bad now hbad
    simp only [read_data, Bool.true_eq_false, if_false,
      List.foldl_append, List.foldl_cons]
    have hstep : ∀ acc, read_step driver acc bad = acc := by
      intro acc
      simp [read_step, hbad]
    rw [hstep]

/-- A one-register temperature mapping with scale divisor 100. -/
def cfgTemp : RegisterConfig :=
  { address := 0, rtype := "holding", count := 1, scale := 100 }

/-- A driver answering the temperature mapping at address 0 with the word
9523 and erroring on everything else (in particular on cfg32). -/
def driverTemp : RegisterConfig → RegisterReadResult :=
  fun c => if c.address = 0 then RegisterReadResult.registers [9523]
           else RegisterReadResult.isError

/-- Claim C8 witness: the amended statement instantiated on the temperature
mapping (9523 scaled by 100 gives 95.23) next to an erroring mapping that is
skipped. -/
theorem read_value_first_word_and_error_skipped_witness :
    read_one_register driverTemp cfgTemp =
      some (round2 ((9523 : Rat) / cfgTemp.scale)) ∧
    read_data true [("temperature", cfgTemp), ("broken", cfg32)] driverTemp "t1" =
      read_data true [("temperature", cfgTemp)] driverTemp "t1" := by
  have h := read_value_first_word_and_error_skipped driverTemp cfgTemp 9523 []
    (by rfl) (by rfl)
  exact ⟨h.1, h.2 [("temperature", cfgTemp)] [] ("broken", cfg32) "t1" (by rfl)⟩

/-- Claim C10: read_data on a disconnected adapter returns the empty dict;
on a connected adapter the result always carries the timestamp key assigned
last — whatever the mappings and however many individual register reads
error and are skipped — and is therefore never the empty dict. -/
theorem read_data_timestamp_always_present
    (mappings : List (String × RegisterConfig))
    (driver : RegisterConfig → RegisterReadResult) (now : String) :
    read_data false mappings driver now = [] ∧
    dictLookup (read_data true mappings driver now) "timestamp" =
      some (PyValue.str now) ∧
    read_data true mappings driver now ≠ [] := by
  have hl : dictLookup (read_data true mappings driver now) "timestamp" =
      some (PyValue.str now) := by
    simp only [read_data, Bool.true_eq_false, if_false]
    exact dictLookup_insert_self _ _ _
  exact ⟨rfl, hl, dictLookup_some_ne_nil _ _ _ hl⟩

/-- Claim C9: for every parsed range the probed list holds at most 254
addresses and is an initial segment of the full host enumeration — larger
ranges are truncated to their first 254 host addresses — while an invalid
range, which parses to nothing, yields the empty list rather than an error. -/
theorem scan_range_capped_at_254 :
    (∀ parsed, (generate_ip_range parsed).length ≤ 254) ∧
    (∀ n, ∃ rest, hosts n = generate_ip_range (some n) ++ rest) ∧
    generate_ip_range none = [] := by
  refine ⟨?_, ?_, rfl⟩
  · intro parsed
    cases parsed with
    | none => simp [generate_ip_range]
    | some n =>
      simp only [generate_ip_range]
      exact List.length_take_le 254 (hosts n)
  · intro n
    exact ⟨(hosts n).drop 254, (List.take_append_drop 254 (hosts n)).symm⟩
